import Mathlib

/-!
# Verification of `core/execution.py` (iTrader)

Shallow embedding of `SimulatedExecutionHandler` from `src/core/execution.py`:
the order ledger, the per-bar scan (`scan_open_orders`) and the immediate
execution path (`execute_order`), together with theorems settling the spec's
claims about them.

Prices are modelled as rationals (`ℚ`), quantities as integers, timestamps as
naturals. Python's in-place mutation of ledger entries is modelled by
functional update of the corresponding list element; the event queue pushed to
by `self.events.put` is modelled as the list of fills a call pushes.
-/

namespace ITrader

/-- An order record, as created by the portfolio layer and mutated by the
execution handler. Order events (`OrderEvent`) and ledger entries are the same
Python object (`self.all_orders.append(event)`), so a single structure models
both; `type` is the event's `type` attribute (`'ORDER'` for order events). -/
structure Order where
  type : String
  symbol : String
  order_type : String
  quantity : Int
  direction : String
  limit_price : Option ℚ := none
  stop_price : Option ℚ := none
  stop_loss : Option ℚ := none
  profit_target : Option ℚ := none
  entry_time : Option Nat := none
  entry_price : Option ℚ := none
  exit_time : Option Nat := none
  exit_price : Option ℚ := none
  profit : Option ℚ := none
deriving DecidableEq, Repr

/-- Modelled from the spec: the `FillEvent` record (`src/core/event.py` is not
among the sources). The spec describes a Fill as an immutable record of
timestamp, fill price, symbol, venue tag, quantity, direction and a fixed
commission rate; the constructor in `execution.py` is always called as
`FillEvent(order, timeindex, price, symbol, 'LOCAL', quantity, direction, 0.01)`.
The leading order back-reference is not modelled (no claim inspects it). -/
structure FillEvent where
  timeindex : Nat
  price : ℚ
  symbol : String
  exchange : String
  quantity : Int
  direction : String
  commission : ℚ
deriving DecidableEq, Repr

/-- One OHLC bar of the data feed; only the fields the handler reads
(`latest_bar['high']`, `latest_bar['low']` and the `"close"` value) are kept. -/
structure Bar where
  high : ℚ
  low : ℚ
  close : ℚ
deriving DecidableEq, Repr

/-- The market-data collaborator (`self.bars`): an ordered symbol list plus the
latest-bar accessors. `get_latest_bar(symbol)[1]` is the OHLC record, modelled
by `get_latest_bar`; `get_latest_bar_value(symbol, "close")` is the close of
that record. -/
structure DataFeed where
  symbol_list : List String
  get_latest_bar_datetime : String → Nat
  get_latest_bar : String → Bar

/-- The body of the inner loop of `scan_open_orders` for one order: given the
bar timestamp and OHLC of the order's symbol, returns the (possibly mutated)
order together with the fill events appended for it, mirroring the source's
control flow line by line (execution.py lines 78-170). -/
def scanOrder (timeindex : Nat) (latest_bar : Bar) (order : Order) :
    Order × List FillEvent :=
  match order.entry_price with
  | none =>
    if order.order_type = "LMT" then
      match order.limit_price with
      | none => (order, [])
      | some lp =>
        let s1 : Order × List FillEvent :=
          if order.direction = "BUY" ∧ latest_bar.low < lp then
            ({ order with entry_time := some timeindex, entry_price := some lp },
             [⟨timeindex, lp, order.symbol, "LOCAL", order.quantity, order.direction, 0.01⟩])
          else (order, [])
        if s1.1.direction = "SELL" ∧ latest_bar.high > lp then
          ({ s1.1 with entry_time := some timeindex, entry_price := some lp },
           s1.2 ++ [⟨timeindex, lp, s1.1.symbol, "LOCAL", s1.1.quantity, s1.1.direction, 0.01⟩])
        else s1
    else if order.order_type = "STP" then
      match order.stop_price with
      | none => (order, [])
      | some sp =>
        let s1 : Order × List FillEvent :=
          if order.direction = "BUY" ∧ latest_bar.high > sp then
            ({ order with entry_time := some timeindex, entry_price := some sp },
             [⟨timeindex, sp, order.symbol, "LOCAL", order.quantity, order.direction, 0.01⟩])
          else (order, [])
        if s1.1.direction = "SELL" ∧ latest_bar.low < sp then
          ({ s1.1 with entry_time := some timeindex, entry_price := some sp },
           s1.2 ++ [⟨timeindex, sp, s1.1.symbol, "LOCAL", s1.1.quantity, s1.1.direction, 0.01⟩])
        else s1
    else (order, [])
  | some ep =>
    match order.exit_price with
    | some _ => (order, [])
    | none =>
      let s1 : Order × List FillEvent :=
        match order.stop_loss with
        | none => (order, [])
        | some sl =>
          let a : Order × List FillEvent :=
            if order.direction = "BUY" ∧ latest_bar.low ≤ sl then
              ({ order with
                 exit_time := some timeindex, exit_price := some sl,
                 profit := some ((sl - ep) * (order.quantity : ℚ)) },
               [⟨timeindex, sl, order.symbol, "LOCAL", order.quantity, "SELL", 0.01⟩])
            else (order, [])
          if a.1.direction = "SELL" ∧ latest_bar.high ≥ sl then
            ({ a.1 with
               exit_time := some timeindex, exit_price := some sl,
               profit := some ((sl - ep) * (a.1.quantity : ℚ)) },
             a.2 ++ [⟨timeindex, sl, a.1.symbol, "LOCAL", a.1.quantity, "BUY", 0.01⟩])
          else a
      match s1.1.profit_target with
      | none => s1
      | some pt =>
        let b : Order × List FillEvent :=
          if s1.1.direction = "BUY" ∧ latest_bar.high ≥ pt then
            ({ s1.1 with
               exit_time := some timeindex, exit_price := some pt,
               profit := some ((pt - ep) * (s1.1.quantity : ℚ)) },
             s1.2 ++ [⟨timeindex, pt, s1.1.symbol, "LOCAL", s1.1.quantity, "SELL", 0.01⟩])
          else s1
        if b.1.direction = "SELL" ∧ latest_bar.low ≤ pt then
          ({ b.1 with
             exit_time := some timeindex, exit_price := some pt,
             profit := some ((pt - ep) * (b.1.quantity : ℚ)) },
           b.2 ++ [⟨timeindex, pt, b.1.symbol, "LOCAL", b.1.quantity, "BUY", 0.01⟩])
        else b

/-- The inner `for order in self.all_orders` loop of `scan_open_orders` for one
symbol: orders of other symbols are skipped (`continue`), the rest are run
through `scanOrder`; returns the updated ledger and the fills appended during
this symbol's iteration. -/
def scanSymbolOrders (timeindex : Nat) (bar : Bar) (symbol : String) :
    List Order → List Order × List FillEvent
  | [] => ([], [])
  | o :: rest =>
    let r := if o.symbol = symbol then scanOrder timeindex bar o else (o, [])
    let rs := scanSymbolOrders timeindex bar symbol rest
    (r.1 :: rs.1, r.2 ++ rs.2)

/-- The outer `for symbol in self.bars.symbol_list` loop of `scan_open_orders`.
The accumulator is the current binding of the local variable `fill_events`,
which the source re-initialises to `[]` at the top of every iteration; `none`
means the variable has never been bound. -/
def scanGo (feed : DataFeed) :
    List String → List Order → Option (List FillEvent) →
      List Order × Option (List FillEvent)
  | [], orders, acc => (orders, acc)
  | sym :: rest, orders, _ =>
    let r := scanSymbolOrders (feed.get_latest_bar_datetime sym)
      (feed.get_latest_bar sym) sym orders
    scanGo feed rest r.1 (some r.2)

/-- `scan_open_orders` (execution.py lines 69-172): scans the ledger against
the latest bar of every symbol and executes the `return fill_events` at the
end. The returned fills are `none` exactly when `fill_events` was never bound
(empty symbol list), modelling the `UnboundLocalError` Python raises there;
otherwise they are the binding left by the last symbol iteration. The function
contains no `self.events.put` call, so it pushes nothing onto the queue. -/
def scan_open_orders (feed : DataFeed) (orders : List Order) :
    List Order × Option (List FillEvent) :=
  scanGo feed feed.symbol_list orders none

/-- `_find_open_order` (execution.py lines 60-67): first ledger order of the
symbol with `entry_price` set and `exit_price` unset, else `none`. -/
def find_open_order : List Order → String → Option Order
  | [], _ => none
  | o :: rest, symbol =>
    if o.symbol = symbol ∧ o.entry_price ≠ none ∧ o.exit_price = none then some o
    else find_open_order rest symbol

/-- The in-place mutation of the order found by `_find_open_order` in the
market-order close path (execution.py lines 193-197): the first open order of
the symbol gets its exit fields and profit set; all other entries are kept. -/
def close_open_order (symbol : String) (timeindex : Nat) (price : ℚ) :
    List Order → List Order
  | [] => []
  | o :: rest =>
    match o.entry_price with
    | some ep =>
      if o.symbol = symbol ∧ o.exit_price = none then
        { o with
          exit_time := some timeindex, exit_price := some price,
          profit := some ((price - ep) * (o.quantity : ℚ)) } :: rest
      else o :: close_open_order symbol timeindex price rest
    | none => o :: close_open_order symbol timeindex price rest

/-- `execute_order` (execution.py lines 174-208). Returns the ledger after the
call together with the list of fill events the call `put` onto the event
queue, in order. -/
def execute_order (feed : DataFeed) (orders : List Order) (event : Order) :
    List Order × List FillEvent :=
  if event.type = "ORDER" ∧ event.order_type = "MKT" then
    let timeindex := feed.get_latest_bar_datetime event.symbol
    let price := (feed.get_latest_bar event.symbol).close
    match find_open_order orders event.symbol with
    | none =>
      (orders ++ [{ event with entry_time := some timeindex, entry_price := some price }],
       [⟨timeindex, price, event.symbol, "LOCAL", event.quantity, event.direction, 0.01⟩])
    | some _ =>
      (close_open_order event.symbol timeindex price orders,
       [⟨timeindex, price, event.symbol, "LOCAL", event.quantity, event.direction, 0.01⟩])
  else if event.type = "ORDER" ∧ (event.order_type = "LMT" ∨ event.order_type = "STP") then
    (orders ++ [event], [])
  else (orders, [])

/-- Iterated per-bar scanning: the ledger after `n` successive calls to
`scan_open_orders` against the same feed. -/
def scanIter (feed : DataFeed) : Nat → List Order → List Order
  | 0, orders => orders
  | n + 1, orders => scanIter feed n (scan_open_orders feed orders).1

/-- Concrete open BUY order used in examples: entered at 100 with
stop_loss 95 and profit_target 105. -/
def oC1 : Order where
  type := "ORDER"
  symbol := "A"
  order_type := "MKT"
  quantity := 1
  direction := "BUY"
  entry_time := some 1
  entry_price := some 100
  stop_loss := some 95
  profit_target := some 105

/-- Concrete bar whose low pierces the stop_loss of `oC1` and whose high
reaches its profit_target in the same bar. -/
def barC1 : Bar := ⟨106, 94, 100⟩

/-- Concrete pending LMT BUY order on symbol "A" with limit_price 100. -/
def oA : Order where
  type := "ORDER"
  symbol := "A"
  order_type := "LMT"
  quantity := 1
  direction := "BUY"
  limit_price := some 100

/-- Same pending LMT BUY order on symbol "B". -/
def oB : Order := { oA with symbol := "B" }

/-- Concrete two-symbol feed whose single bar (high 101, low 99, close 100)
triggers the limit entries of both `oA` and `oB`. -/
def feedC2 : DataFeed where
  symbol_list := ["A", "B"]
  get_latest_bar_datetime := fun _ => 3
  get_latest_bar := fun _ => ⟨101, 99, 100⟩

/-- Concrete open BUY order on symbol "A": entered at 100, quantity 2. -/
def openBuy : Order where
  type := "ORDER"
  symbol := "A"
  order_type := "MKT"
  quantity := 2
  direction := "BUY"
  entry_time := some 1
  entry_price := some 100

/-- Concrete MKT SELL order event on symbol "A", closing `openBuy`. -/
def closeEv : Order where
  type := "ORDER"
  symbol := "A"
  order_type := "MKT"
  quantity := 2
  direction := "SELL"

/-- Concrete one-symbol feed with latest bar high 111, low 108, close 110. -/
def feed1 : DataFeed where
  symbol_list := ["A"]
  get_latest_bar_datetime := fun _ => 5
  get_latest_bar := fun _ => ⟨111, 108, 110⟩

/-- Concrete closed order: entered at 100 and exited at 105. -/
def oClosed : Order where
  type := "ORDER"
  symbol := "A"
  order_type := "MKT"
  quantity := 1
  direction := "BUY"
  entry_time := some 1
  entry_price := some 100
  exit_time := some 2
  exit_price := some 105
  profit := some 5

/-- Concrete pending LMT order whose limit_price was never set. -/
def oNoLimit : Order where
  type := "ORDER"
  symbol := "A"
  order_type := "LMT"
  quantity := 1
  direction := "BUY"

/-- Concrete pending STP order whose stop_price was never set. -/
def oNoStop : Order where
  type := "ORDER"
  symbol := "A"
  order_type := "STP"
  quantity := 1
  direction := "SELL"

/-- Concrete pending STP SELL order on symbol "A" with stop_price 50. -/
def oStpSell : Order where
  type := "ORDER"
  symbol := "A"
  order_type := "STP"
  quantity := 1
  direction := "SELL"
  stop_price := some 50

/-- Concrete non-order event (type "MARKET"). -/
def nonOrderEv : Order where
  type := "MARKET"
  symbol := "A"
  order_type := "MKT"
  quantity := 1
  direction := "BUY"

theorem scanOrder_closed (t : Nat) (bar : Bar) (o : Order)
    (h1 : o.entry_price ≠ none) (h2 : o.exit_price ≠ none) :
    scanOrder t bar o = (o, []) := by
  obtain ⟨ep, hep⟩ := Option.ne_none_iff_exists'.mp h1
  obtain ⟨xp, hxp⟩ := Option.ne_none_iff_exists'.mp h2
  simp [scanOrder, hep, hxp]

theorem scanSymbolOrders_fst (t : Nat) (bar : Bar) (sym : String) (orders : List Order) :
    (scanSymbolOrders t bar sym orders).1 =
      orders.map (fun o => if o.symbol = sym then (scanOrder t bar o).1 else o) := by
  induction orders with
  | nil => rfl
  | cons o rest ih => simp [scanSymbolOrders, ih, apply_ite Prod.fst]

theorem scanGo_closed_get (feed : DataFeed) (l : List String) (orders : List Order)
    (acc : Option (List FillEvent)) (i : Nat) (o : Order)
    (hi : orders[i]? = some o)
    (h1 : o.entry_price ≠ none) (h2 : o.exit_price ≠ none) :
    (scanGo feed l orders acc).1[i]? = some o := by
  induction l generalizing orders acc with
  | nil => simpa [scanGo] using hi
  | cons s rest ih =>
    apply ih
    rw [scanSymbolOrders_fst, List.getElem?_map, hi]
    simp [scanOrder_closed _ _ _ h1 h2]

theorem scanGo_snd_some (feed : DataFeed) (l : List String) (orders : List Order)
    (fs : List FillEvent) : (scanGo feed l orders (some fs)).2 ≠ none := by
  induction l generalizing orders fs with
  | nil => simp [scanGo]
  | cons s rest ih => exact ih _ _

/-- C8: `scan_open_orders` raises no exception for malformed pending orders: a
pending LMT order with no limit_price and a pending STP order with no
stop_price are never triggered by any scan — the order is left unchanged and
no fill is generated for it, a silent no-op. -/
theorem C8_malformed_pending_noop (t : Nat) (bar : Bar) (o : Order)
    (hep : o.entry_price = none)
    (h : (o.order_type = "LMT" ∧ o.limit_price = none) ∨
         (o.order_type = "STP" ∧ o.stop_price = none)) :
    scanOrder t bar o = (o, []) := by
  rcases h with ⟨hot, hlp⟩ | ⟨hot, hsp⟩
  · simp [scanOrder, hep, hot, hlp]
  · simp [scanOrder, hep, hot, hsp, show ("STP" : String) ≠ "LMT" by decide]

/-- Witness for C8: the malformed pending LMT order `oNoLimit` is untouched by
a scan against a bar that would trigger a well-formed limit order. -/
theorem C8_witness :
    scanOrder 3 ⟨101, 99, 100⟩ oNoLimit = (oNoLimit, []) :=
  C8_malformed_pending_noop 3 ⟨101, 99, 100⟩ oNoLimit rfl (Or.inl ⟨rfl, rfl⟩)

/-- C9: `scan_open_orders` returns a fill batch exactly when the feed's
symbol_list is non-empty; on an empty symbol_list the outer loop body never
binds the local `fill_events` and the final `return` raises an unbound-local
error, modelled by the `none` result. -/
theorem C9_empty_symbol_list_unbound_local (feed : DataFeed) (orders : List Order) :
    (scan_open_orders feed orders).2 = none ↔ feed.symbol_list = [] := by
  unfold scan_open_orders
  cases h : feed.symbol_list with
  | nil => simp [scanGo]
  | cons s rest =>
    simp only [scanGo]
    constructor
    · intro hc
      exact absurd hc (scanGo_snd_some feed rest _ _)
    · intro hc
      cases hc

/-- C10: for an event whose type is not 'ORDER', or whose order_type is none
of MKT, LMT, STP, `execute_order` is a complete no-op: the ledger is unchanged
and nothing is put on the event queue. -/
theorem C10_non_order_event_noop (feed : DataFeed) (orders : List Order) (event : Order)
    (h : event.type ≠ "ORDER" ∨
         (event.order_type ≠ "MKT" ∧ event.order_type ≠ "LMT" ∧ event.order_type ≠ "STP")) :
    execute_order feed orders event = (orders, []) := by
  rcases h with h | ⟨h1, h2, h3⟩
  · simp [execute_order, h]
  · simp [execute_order, h1, h2, h3]

/-- Witness for C10: an event of type "MARKET" leaves an empty ledger and the
queue untouched. -/
theorem C10_witness : execute_order feed1 [] nonOrderEv = ([], []) :=
  C10_non_order_event_noop feed1 [] nonOrderEv (Or.inl (by decide))

/-- C5: a pending LMT order (entry_price null, limit_price set) triggers in a
scan exactly when the bar's low is strictly below limit_price (BUY) resp. the
bar's high is strictly above limit_price (SELL); on trigger entry_time is the
bar timestamp, entry_price is limit_price, and one fill is generated with
price limit_price, the order's quantity and the order's direction. -/
theorem C5_lmt_entry_trigger (t : Nat) (bar : Bar) (o : Order) (lp : ℚ)
    (hep : o.entry_price = none) (hot : o.order_type = "LMT")
    (hlp : o.limit_price = some lp) :
    (o.direction = "BUY" →
      (bar.low < lp →
        scanOrder t bar o =
          ({ o with entry_time := some t, entry_price := some lp },
           [⟨t, lp, o.symbol, "LOCAL", o.quantity, "BUY", 0.01⟩])) ∧
      (¬ bar.low < lp → scanOrder t bar o = (o, []))) ∧
    (o.direction = "SELL" →
      (bar.high > lp →
        scanOrder t bar o =
          ({ o with entry_time := some t, entry_price := some lp },
           [⟨t, lp, o.symbol, "LOCAL", o.quantity, "SELL", 0.01⟩])) ∧
      (¬ bar.high > lp → scanOrder t bar o = (o, []))) := by
  constructor
  · intro hdir
    constructor
    · intro hlow
      simp [scanOrder, hep, hot, hlp, hdir, hlow, show ("BUY" : String) ≠ "SELL" by decide]
    · intro hlow
      simp [scanOrder, hep, hot, hlp, hdir, hlow, show ("BUY" : String) ≠ "SELL" by decide]
  · intro hdir
    constructor
    · intro hhigh
      simp [scanOrder, hep, hot, hlp, hdir, hhigh, show ("SELL" : String) ≠ "BUY" by decide]
    · intro hhigh
      simp [scanOrder, hep, hot, hlp, hdir, hhigh, show ("SELL" : String) ≠ "BUY" by decide]

/-- Witness for C5: the spec's scenario — LMT BUY at limit 100, bar
low 99 / high 101 — enters at 100 with one BUY fill at 100. -/
theorem C5_witness :
    scanOrder 3 ⟨101, 99, 100⟩ oA =
      ({ oA with entry_time := some 3, entry_price := some 100 },
       [⟨3, 100, "A", "LOCAL", 1, "BUY", 0.01⟩]) :=
  ((C5_lmt_entry_trigger 3 ⟨101, 99, 100⟩ oA 100 rfl rfl rfl).1 rfl).1 (by decide)

/-- C6: a pending STP order (entry_price null, stop_price set) triggers in a
scan exactly when the bar's high is strictly above stop_price (BUY) resp. the
bar's low is strictly below stop_price (SELL); on trigger entry_time is the
bar timestamp, entry_price is stop_price, and one fill is generated at
stop_price with the order's quantity and direction. -/
theorem C6_stp_entry_trigger (t : Nat) (bar : Bar) (o : Order) (sp : ℚ)
    (hep : o.entry_price = none) (hot : o.order_type = "STP")
    (hsp : o.stop_price = some sp) :
    (o.direction = "BUY" →
      (bar.high > sp →
        scanOrder t bar o =
          ({ o with entry_time := some t, entry_price := some sp },
           [⟨t, sp, o.symbol, "LOCAL", o.quantity, "BUY", 0.01⟩])) ∧
      (¬ bar.high > sp → scanOrder t bar o = (o, []))) ∧
    (o.direction = "SELL" →
      (bar.low < sp →
        scanOrder t bar o =
          ({ o with entry_time := some t, entry_price := some sp },
           [⟨t, sp, o.symbol, "LOCAL", o.quantity, "SELL", 0.01⟩])) ∧
      (¬ bar.low < sp → scanOrder t bar o = (o, []))) := by
  have hne : ("STP" : String) ≠ "LMT" := by decide
  constructor
  · intro hdir
    constructor
    · intro hhigh
      simp [scanOrder, hep, hot, hsp, hdir, hhigh, hne,
        show ("BUY" : String) ≠ "SELL" by decide]
    · intro hhigh
      simp [scanOrder, hep, hot, hsp, hdir, hhigh, hne,
        show ("BUY" : String) ≠ "SELL" by decide]
  · intro hdir
    constructor
    · intro hlow
      simp [scanOrder, hep, hot, hsp, hdir, hlow, hne,
        show ("SELL" : String) ≠ "BUY" by decide]
    · intro hlow
      simp [scanOrder, hep, hot, hsp, hdir, hlow, hne,
        show ("SELL" : String) ≠ "BUY" by decide]

/-- Witness for C6: the spec's scenario — STP SELL at stop 50, bar low 49 —
enters at 50 with one SELL fill at 50. -/
theorem C6_witness :
    scanOrder 4 ⟨52, 49, 50⟩ oStpSell =
      ({ oStpSell with entry_time := some 4, entry_price := some 50 },
       [⟨4, 50, "A", "LOCAL", 1, "SELL", 0.01⟩]) :=
  ((C6_stp_entry_trigger 4 ⟨52, 49, 50⟩ oStpSell 50 rfl rfl rfl).2 rfl).1 (by decide)

/-- C1 counterexample: for the open BUY order `oC1` (entry 100, stop_loss 95,
profit_target 105) and the bar `barC1` (low 94, high 106) both exit conditions
hold, yet one scan of the order produces two exit fills and its final
exit_price and profit come from the profit_target trigger (105), not from the
stop_loss trigger alone as the claim states. -/
theorem C1_counterexample :
    oC1.entry_price = some 100 ∧ oC1.exit_price = none ∧ oC1.direction = "BUY" ∧
    oC1.stop_loss = some 95 ∧ oC1.profit_target = some 105 ∧
    barC1.low ≤ 95 ∧ (105 : ℚ) ≤ barC1.high ∧
    (scanOrder 7 barC1 oC1).1.exit_price = some 105 ∧
    (scanOrder 7 barC1 oC1).1.profit = some 5 ∧
    (scanOrder 7 barC1 oC1).2.length = 2 := by
  refine ⟨rfl, rfl, rfl, rfl, rfl, by decide, by decide, ?_, ?_, ?_⟩
  all_goals
    norm_num [scanOrder, oC1, barC1, show ("BUY" : String) ≠ "SELL" by decide]

/-- C1 (amended): the stop_loss condition is checked first, but when it fires
the profit_target check is not skipped — it runs unconditionally and does not
re-check exit_price. For any open order whose stop_loss condition holds
(low ≤ stop_loss for BUY, high ≥ stop_loss for SELL): if the profit_target
condition also holds (high ≥ target for BUY, low ≤ target for SELL), both
triggers fire, the stop_loss fill is emitted first and the profit_target fill
second (both with the forced opposite direction), and the final exit_price and
profit are overwritten by the profit_target trigger; only when the
profit_target condition fails does the stop_loss trigger alone determine the
exit with exactly one fill. -/
theorem C1_amended_both_exit_triggers_fire (t : Nat) (bar : Bar) (o : Order)
    (ep sl pt : ℚ)
    (hep : o.entry_price = some ep) (hxp : o.exit_price = none)
    (hsl : o.stop_loss = some sl) (hpt : o.profit_target = some pt) :
    (o.direction = "BUY" → bar.low ≤ sl →
      (pt ≤ bar.high →
        (scanOrder t bar o).1.exit_price = some pt ∧
        (scanOrder t bar o).1.profit = some ((pt - ep) * (o.quantity : ℚ)) ∧
        (scanOrder t bar o).2 =
          [⟨t, sl, o.symbol, "LOCAL", o.quantity, "SELL", 0.01⟩,
           ⟨t, pt, o.symbol, "LOCAL", o.quantity, "SELL", 0.01⟩]) ∧
      (¬ pt ≤ bar.high →
        (scanOrder t bar o).1.exit_price = some sl ∧
        (scanOrder t bar o).1.profit = some ((sl - ep) * (o.quantity : ℚ)) ∧
        (scanOrder t bar o).2 =
          [⟨t, sl, o.symbol, "LOCAL", o.quantity, "SELL", 0.01⟩])) ∧
    (o.direction = "SELL" → sl ≤ bar.high →
      (bar.low ≤ pt →
        (scanOrder t bar o).1.exit_price = some pt ∧
        (scanOrder t bar o).1.profit = some ((pt - ep) * (o.quantity : ℚ)) ∧
        (scanOrder t bar o).2 =
          [⟨t, sl, o.symbol, "LOCAL", o.quantity, "BUY", 0.01⟩,
           ⟨t, pt, o.symbol, "LOCAL", o.quantity, "BUY", 0.01⟩]) ∧
      (¬ bar.low ≤ pt →
        (scanOrder t bar o).1.exit_price = some sl ∧
        (scanOrder t bar o).1.profit = some ((sl - ep) * (o.quantity : ℚ)) ∧
        (scanOrder t bar o).2 =
          [⟨t, sl, o.symbol, "LOCAL", o.quantity, "BUY", 0.01⟩])) := by
  constructor
  · intro hdir hlow
    constructor
    · intro hhigh
      simp [scanOrder, hep, hxp, hsl, hpt, hdir, hlow, hhigh,
        show ("BUY" : String) ≠ "SELL" by decide]
    · intro hhigh
      simp [scanOrder, hep, hxp, hsl, hpt, hdir, hlow, hhigh,
        show ("BUY" : String) ≠ "SELL" by decide]
  · intro hdir hhigh
    constructor
    · intro hlow
      simp [scanOrder, hep, hxp, hsl, hpt, hdir, hhigh, hlow,
        show ("SELL" : String) ≠ "BUY" by decide]
    · intro hlow
      simp [scanOrder, hep, hxp, hsl, hpt, hdir, hhigh, hlow,
        show ("SELL" : String) ≠ "BUY" by decide]

/-- Witness for the amended C1: on `oC1` and `barC1` both triggers fire, the
exit is the profit_target one and the two fills appear in check order. -/
theorem C1_witness :
    (scanOrder 7 barC1 oC1).1.exit_price = some 105 ∧
    (scanOrder 7 barC1 oC1).1.profit = some ((105 - 100) * ((1 : Int) : ℚ)) ∧
    (scanOrder 7 barC1 oC1).2 =
      [⟨7, 95, "A", "LOCAL", 1, "SELL", 0.01⟩,
       ⟨7, 105, "A", "LOCAL", 1, "SELL", 0.01⟩] :=
  (((C1_amended_both_exit_triggers_fire 7 barC1 oC1 100 95 105
    rfl rfl rfl rfl).1 rfl (by decide)).1 (by decide))

/-- C7: a closed order (entry_price and exit_price both set) is scan-invariant:
after any number of `scan_open_orders` calls it is still in its ledger slot
with every field unchanged, and a scan never mutates it nor generates a fill
for it. -/
theorem C7_closed_orders_scan_invariant (feed : DataFeed) (orders : List Order)
    (o : Order) (i n : Nat) (hi : orders[i]? = some o)
    (h1 : o.entry_price ≠ none) (h2 : o.exit_price ≠ none) :
    (scanIter feed n orders)[i]? = some o ∧
    ∀ t bar, scanOrder t bar o = (o, []) := by
  constructor
  · induction n generalizing orders with
    | zero => simpa [scanIter] using hi
    | succ n ih =>
      simp only [scanIter]
      exact ih _ (scanGo_closed_get feed feed.symbol_list orders none i o hi h1 h2)
  · intro t bar
    exact scanOrder_closed t bar o h1 h2

/-- Witness for C7: the closed order `oClosed` survives three scans untouched
in slot 0 of the ledger. -/
theorem C7_witness : (scanIter feed1 3 [oClosed])[0]? = some oClosed :=
  (C7_closed_orders_scan_invariant feed1 [oClosed] oClosed 0 3 (by decide)
    (by decide) (by decide)).1

/-- C2: evaluation at the failing input. For the two-symbol feed `feedC2` with
pending limit orders `oA` (symbol "A") and `oB` (symbol "B"), both of which
trigger on their bars, one call to `scan_open_orders` mutates both orders'
entry_price — so two fills were generated during the double loop — yet
returns only the fill of the last symbol "B", because the local `fill_events`
list is re-initialised at the top of every symbol iteration. -/
theorem C2_scan_returns_last_symbol_fills_only :
    (scan_open_orders feedC2 [oA, oB]).1.map Order.entry_price =
      [some 100, some 100] ∧
    (scan_open_orders feedC2 [oA, oB]).2 =
      some [⟨3, 100, "B", "LOCAL", 1, "BUY", 0.01⟩] := by
  norm_num [scan_open_orders, scanGo, scanSymbolOrders, scanOrder, feedC2, oA, oB,
    show ("BUY" : String) ≠ "SELL" by decide, show ("A" : String) ≠ "B" by decide,
    show ("B" : String) ≠ "A" by decide]

theorem find_open_order_append (pre post : List Order) (o : Order) (sym : String)
    (hpre : ∀ p ∈ pre, ¬(p.symbol = sym ∧ p.entry_price ≠ none ∧ p.exit_price = none))
    (ho : o.symbol = sym ∧ o.entry_price ≠ none ∧ o.exit_price = none) :
    find_open_order (pre ++ o :: post) sym = some o := by
  induction pre with
  | nil =>
    simp only [List.nil_append, find_open_order]
    rw [if_pos ho]
  | cons p ps ih =>
    simp only [List.cons_append, find_open_order]
    rw [if_neg (hpre p (by simp))]
    exact ih (fun q hq => hpre q (by simp [hq]))

theorem close_open_order_append (pre post : List Order) (o : Order) (sym : String)
    (t : Nat) (price ep : ℚ)
    (hpre : ∀ p ∈ pre, ¬(p.symbol = sym ∧ p.entry_price ≠ none ∧ p.exit_price = none))
    (hsym : o.symbol = sym) (hep : o.entry_price = some ep) (hxp : o.exit_price = none) :
    close_open_order sym t price (pre ++ o :: post) =
      pre ++ { o with
        exit_time := some t, exit_price := some price,
        profit := some ((price - ep) * (o.quantity : ℚ)) } :: post := by
  induction pre with
  | nil =>
    simp only [List.nil_append, close_open_order, hep]
    rw [if_pos ⟨hsym, hxp⟩]
  | cons p ps ih =>
    have hp := hpre p (by simp)
    have ih' := ih (fun q hq => hpre q (by simp [hq]))
    cases hpe : p.entry_price with
    | none => simp [close_open_order, hpe, ih']
    | some pep =>
      have hcond : ¬(p.symbol = sym ∧ p.exit_price = none) :=
        fun hc => hp ⟨hc.1, by simp [hpe], hc.2⟩
      simp [close_open_order, hpe, hcond, ih']

/-- C3 counterexample: `execute_order` on the MKT SELL event `closeEv` for
symbol "A", whose ledger holds the open BUY order `openBuy`, emits a fill whose
direction is "SELL" — the incoming event's direction — and not "BUY", the
original open order's direction as the claim states. -/
theorem C3_counterexample :
    openBuy.entry_price = some 100 ∧ openBuy.exit_price = none ∧
    openBuy.direction = "BUY" ∧ closeEv.direction = "SELL" ∧
    find_open_order [openBuy] closeEv.symbol = some openBuy ∧
    (execute_order feed1 [openBuy] closeEv).2.map FillEvent.direction = ["SELL"] := by
  refine ⟨rfl, rfl, rfl, rfl, by decide, ?_⟩
  norm_num [execute_order, find_open_order, close_open_order, feed1, openBuy, closeEv,
    show ¬(some (100 : ℚ) = none) by decide]

/-- C3 (amended): a MKT order event for a symbol with an existing open order
closes the first such ledger order — exit_time and exit_price become the
current bar's timestamp and close, profit = (close − entry_price) × the open
order's quantity — and exactly one fill is emitted, carrying the incoming
event's direction and quantity, not the original open order's direction. -/
theorem C3_amended_close_emits_event_direction (feed : DataFeed)
    (pre post : List Order) (o event : Order) (ep : ℚ)
    (hty : event.type = "ORDER") (hot : event.order_type = "MKT")
    (hpre : ∀ p ∈ pre,
      ¬(p.symbol = event.symbol ∧ p.entry_price ≠ none ∧ p.exit_price = none))
    (hsym : o.symbol = event.symbol) (hep : o.entry_price = some ep)
    (hxp : o.exit_price = none) :
    execute_order feed (pre ++ o :: post) event =
      (pre ++ { o with
          exit_time := some (feed.get_latest_bar_datetime event.symbol),
          exit_price := some (feed.get_latest_bar event.symbol).close,
          profit := some (((feed.get_latest_bar event.symbol).close - ep) *
            (o.quantity : ℚ)) } :: post,
       [⟨feed.get_latest_bar_datetime event.symbol,
         (feed.get_latest_bar event.symbol).close, event.symbol, "LOCAL",
         event.quantity, event.direction, 0.01⟩]) := by
  have hfind := find_open_order_append pre post o event.symbol hpre
    ⟨hsym, by simp [hep], hxp⟩
  have hclose := close_open_order_append pre post o event.symbol
    (feed.get_latest_bar_datetime event.symbol)
    (feed.get_latest_bar event.symbol).close ep hpre hsym hep hxp
  simp [execute_order, hty, hot, hfind, hclose]

/-- Witness for the amended C3: closing `openBuy` (entry 100, quantity 2)
against close 110 sets exit 110 and profit 20, with one SELL fill — the
event's direction. -/
theorem C3_witness :
    execute_order feed1 [openBuy] closeEv =
      ([{ openBuy with
          exit_time := some 5, exit_price := some 110,
          profit := some ((110 - 100) * ((2 : Int) : ℚ)) }],
       [⟨5, 110, "A", "LOCAL", 2, "SELL", 0.01⟩]) :=
  C3_amended_close_emits_event_direction feed1 [] [] openBuy closeEv 100 rfl rfl
    (by simp) rfl rfl rfl

/-- C4: for an 'ORDER' event, `execute_order` on a MKT order with no open
order for the symbol appends exactly one new order whose entry_time and
entry_price are the current bar's timestamp and close and pushes exactly one
fill (commission 0.01) onto the queue; on a LMT or STP order it appends the
event unfilled and pushes no fill. -/
theorem C4_execute_order_submission_paths (feed : DataFeed) (orders : List Order)
    (event : Order) (hty : event.type = "ORDER") :
    (event.order_type = "MKT" → find_open_order orders event.symbol = none →
      execute_order feed orders event =
        (orders ++ [{ event with
            entry_time := some (feed.get_latest_bar_datetime event.symbol),
            entry_price := some (feed.get_latest_bar event.symbol).close }],
         [⟨feed.get_latest_bar_datetime event.symbol,
           (feed.get_latest_bar event.symbol).close, event.symbol, "LOCAL",
           event.quantity, event.direction, 0.01⟩])) ∧
    ((event.order_type = "LMT" ∨ event.order_type = "STP") →
      execute_order feed orders event = (orders ++ [event], [])) := by
  constructor
  · intro hot hfind
    simp [execute_order, hty, hot, hfind]
  · rintro (hot | hot)
    · simp [execute_order, hty, hot, show ("LMT" : String) ≠ "MKT" by decide]
    · simp [execute_order, hty, hot, show ("STP" : String) ≠ "MKT" by decide]

/-- Witness for C4: a fresh MKT entry on an empty ledger books the order at
close 110 with one fill, and a LMT submission is appended with no fill. -/
theorem C4_witness :
    execute_order feed1 [] closeEv =
      ([{ closeEv with entry_time := some 5, entry_price := some 110 }],
       [⟨5, 110, "A", "LOCAL", 2, "SELL", 0.01⟩]) ∧
    execute_order feed1 [oClosed] oA = ([oClosed, oA], []) :=
  ⟨(C4_execute_order_submission_paths feed1 [] closeEv rfl).1 rfl rfl,
   (C4_execute_order_submission_paths feed1 [oClosed] oA rfl).2 (Or.inl rfl)⟩

end ITrader
